import Mathlib

/-!
Shallow embedding of the ateliercode-server signaling/rendezvous server
(src/server.ts, src/signaling half, src/machines.ts, src/config.ts) and
proofs of the specification claims about it.

Conventions for the embedding:
* timestamps are `Int` (milliseconds);
* JavaScript channels (`ws` handles) are identified by a `Nat` (`cid`);
  reference equality of client objects (`a === b`) is modelled by equality
  of their `cid`, since the server keeps one client record per socket;
* JavaScript string truthiness (`if (s)`) is modelled by `strTruthy`,
  and truthiness of `string | undefined | null` by `optStrTruthy`;
* JS `a || b` on optional strings is `jsOrStr`, `a ?? null` is the
  identity on `Option String`;
* the mutable `Map`s of the source are association lists with JS `Map`
  semantics (`aset` updates in place or appends, `aerase` deletes).
-/

/-- JS truthiness of a string: empty string is falsy. -/
def strTruthy (s : String) : Bool := !(s == "")

/-- JS truthiness of `string | undefined | null`. -/
def optStrTruthy : Option String → Bool
  | none => false
  | some s => strTruthy s

/-- JS `o || d` for `o : string | undefined`. -/
def jsOrStr : Option String → String → String
  | none, d => d
  | some s, d => if s == "" then d else s

/-- Lookup in an association list (JS `Map.get`). -/
def alookup {α : Type} (k : String) : List (String × α) → Option α
  | [] => none
  | (k2, v) :: rest => if k2 = k then some v else alookup k rest

/-- In-place update of one association entry, used by `aset`. -/
def updEntry {α : Type} (k : String) (v : α) (p : String × α) : String × α :=
  if p.1 = k then (k, v) else p

/-- JS `Map.set`: replace in place if the key exists, else append. -/
def aset {α : Type} (k : String) (v : α) (l : List (String × α)) : List (String × α) :=
  if (alookup k l).isSome then l.map (updEntry k v) else l ++ [(k, v)]

/-- The keep predicate of `aerase`. -/
def keepEntry {α : Type} (k : String) (p : String × α) : Bool := decide (p.1 ≠ k)

/-- JS `Map.delete`. -/
def aerase {α : Type} (k : String) (l : List (String × α)) : List (String × α) :=
  l.filter (keepEntry k)

/-! ## Data model (src/types.ts, src/db/migrate.ts) -/

/-- `MachineCapabilities` from src/types.ts. -/
structure MachineCapabilities where
  hasGit : Bool
  hasNode : Bool
  hasRust : Bool
  hasPython : Bool
deriving DecidableEq, Repr

/-- A row of the `machines` table (`DBMachine` in src/machines.ts). -/
structure MachineRow where
  id : String
  user_id : String
  name : String
  platform : String
  last_seen : Int
  is_online : Bool
  capabilities : MachineCapabilities
  created_at : Int
deriving DecidableEq, Repr

/-- The persistent store, as far as the claims need it: the machines table. -/
structure Db where
  machines : List MachineRow
deriving DecidableEq, Repr

/-- `ConnectedClient` from src/types.ts; `cid` stands for the `ws` handle. -/
structure ConnectedClient where
  cid : Nat
  authenticated : Bool
  userId : Option String := none
  machineId : Option String := none
  lastHeartbeat : Int
deriving DecidableEq, Repr

/-! ## Machine registry (src/machines.ts) -/

/-- `canUserAccessMachine` (src/machines.ts:119-131):
`SELECT 1 FROM machines WHERE id = $1 AND user_id = $2`, nonempty result. -/
def canUserAccessMachine (db : Db) (userId machineId : String) : Bool :=
  db.machines.any (fun r => decide (r.id = machineId ∧ r.user_id = userId))

/-- `getMachineById` (src/machines.ts:82-103):
`SELECT * FROM machines WHERE id = $1`, first row or null. -/
def getMachineById (db : Db) (machineId : String) : Option MachineRow :=
  db.machines.find? (fun r => decide (r.id = machineId))

/-- `updateMachineHeartbeat` (src/machines.ts:58-63):
`UPDATE machines SET last_seen = CURRENT_TIMESTAMP WHERE id = $1`. -/
def updateMachineHeartbeat (db : Db) (machineId : String) (now : Int) : Db :=
  { machines := db.machines.map (fun r =>
      if r.id = machineId then { r with last_seen := now } else r) }

/-- `updateMachineOnlineStatus` (src/machines.ts:48-56):
`UPDATE machines SET is_online = $1, last_seen = CURRENT_TIMESTAMP WHERE id = $2`. -/
def updateMachineOnlineStatus (db : Db) (machineId : String) (isOnline : Bool) (now : Int) : Db :=
  { machines := db.machines.map (fun r =>
      if r.id = machineId then { r with is_online := isOnline, last_seen := now } else r) }

/-- The `WHERE` clause of `markStaleOffline`: currently online and
`last_seen < CURRENT_TIMESTAMP - INTERVAL '1 millisecond' * $1`. -/
def staleRow (now timeoutMs : Int) (r : MachineRow) : Bool :=
  r.is_online && decide (r.last_seen < now - timeoutMs)

/-- `markStaleOffline` (src/machines.ts:105-117): one `UPDATE ... RETURNING id`
that flips `is_online` to false on every stale row and returns their ids. -/
def markStaleOffline (db : Db) (timeoutMs : Int) (now : Int) : Db × List String :=
  ({ machines := db.machines.map (fun r =>
       if staleRow now timeoutMs r then { r with is_online := false } else r) },
   (db.machines.filter (staleRow now timeoutMs)).map (fun r => r.id))

/-- `registerMachine` (src/machines.ts:15-46): upsert on `(user_id, name)`.
`freshId`/`now` stand for `gen_random_uuid()` and `CURRENT_TIMESTAMP`. -/
def registerMachine (db : Db) (userId name platform : String)
    (capabilities : MachineCapabilities) (now : Int) (freshId : String) :
    Db × MachineRow :=
  match db.machines.find? (fun r => decide (r.user_id = userId ∧ r.name = name)) with
  | some old =>
      let updated : MachineRow :=
        { old with platform := platform, capabilities := capabilities,
                   is_online := true, last_seen := now }
      ({ machines := db.machines.map (fun r =>
           if r.user_id = userId ∧ r.name = name then
             { r with platform := platform, capabilities := capabilities,
                      is_online := true, last_seen := now }
           else r) },
       updated)
  | none =>
      let fresh : MachineRow :=
        { id := freshId, user_id := userId, name := name, platform := platform,
          last_seen := now, is_online := true, capabilities := capabilities,
          created_at := now }
      ({ machines := db.machines ++ [fresh] }, fresh)

/-- `deleteMachine` (src/machines.ts:133-144):
`DELETE FROM machines WHERE id = $1 AND user_id = $2 RETURNING id`. -/
def deleteMachine (db : Db) (userId machineId : String) : Db × Bool :=
  ({ machines := db.machines.filter (fun r => decide (¬ (r.id = machineId ∧ r.user_id = userId))) },
   db.machines.any (fun r => decide (r.id = machineId ∧ r.user_id = userId)))

/-- `renameMachine` (src/machines.ts:146-158):
`UPDATE machines SET name = $3 WHERE id = $1 AND user_id = $2 RETURNING id`. -/
def renameMachine (db : Db) (userId machineId newName : String) : Db × Bool :=
  ({ machines := db.machines.map (fun r =>
       if r.id = machineId ∧ r.user_id = userId then { r with name := newName } else r) },
   db.machines.any (fun r => decide (r.id = machineId ∧ r.user_id = userId)))

/-! ## ICE configuration (src/config.ts, src/server.ts:74-91) -/

/-- One entry of `config.ice.turnServers`. -/
structure TurnServer where
  urls : String
  username : String
  credential : String
deriving DecidableEq, Repr

/-- The ICE part of `config`. -/
structure IceConfig where
  stunServers : List String
  turnServers : List TurnServer
deriving DecidableEq, Repr

/-- An element of the `iceServers` array returned by `GET /ice-servers`. -/
inductive IceEntry where
  | stun (urls : String)
  | turn (urls username credential : String)
deriving DecidableEq, Repr

/-- The `/ice-servers` branch of the HTTP handler (src/server.ts:74-91):
status code and `iceServers` body. -/
def iceServersResponse (ice : IceConfig) : Nat × List IceEntry :=
  (200,
   ice.stunServers.map IceEntry.stun ++
   (ice.turnServers.filter (fun t => strTruthy t.credential)).map
     (fun t => IceEntry.turn t.urls t.username t.credential))

/-! ## Outbound frames (the `send`/`sendError` surface of src/server.ts) -/

/-- A server→client frame, with its correlation `id` where the code sets one.
`MachineInfo` lists and user views are kept abstract where no claim needs them. -/
inductive OutMsg where
  | authResponse (id : Option String) (success : Bool)
  | registerUserResponse (id : Option String) (success : Bool)
  | machineRegistered (id : Option String) (machineId name : String)
  | heartbeatAck
  | machinesList (id : Option String) (machineIds : List String)
  | deleteMachineResponse (id : Option String) (success : Bool) (machineId : String)
  | renameMachineResponse (id : Option String) (success : Bool) (machineId newName : String)
  | connectionRequest (fromMachineId fromMachineName connectionId : String)
  | connectionAccepted (connectionId targetMachineId : String)
  | connectionRejected (connectionId reason : String)
  | rtcOffer (connectionId targetMachineId sdp : String)
  | rtcAnswer (connectionId targetMachineId sdp : String)
  | rtcIce (connectionId : String) (targetMachineId : Option String) (candidate : String)
  | machineOnline (machineId name : String)
  | machineOffline (machineId name : String)
  | error (code message : String)
deriving DecidableEq, Repr

/-- The correlation `id` carried by a frame (`WSMessage.id`); frames the code
sends without an `id` yield `none`. -/
def OutMsg.corrId : OutMsg → Option String
  | .authResponse i _ => i
  | .registerUserResponse i _ => i
  | .machineRegistered i _ _ => i
  | .machinesList i _ => i
  | .deleteMachineResponse i _ _ => i
  | .renameMachineResponse i _ _ _ => i
  | _ => none

/-- Whether the frame is an `error` frame. -/
def OutMsg.isError : OutMsg → Bool
  | .error _ _ => true
  | _ => false

/-- One physical send: destination channel (`ws` of the receiving client)
and the frame. -/
structure Sent where
  dest : Nat
  msg : OutMsg
deriving DecidableEq, Repr

/-! ## Signaling broker state (src/server.ts signaling half, lines 481-805) -/

/-- `PendingConnection` (signaling half, lines 495-502). `fromClientCid` is
the `fromClient` reference (strong reference to the originator's channel). -/
structure PendingConnection where
  id : String
  fromMachineId : Option String
  fromClientId : String
  toMachineId : String
  fromClientCid : Nat
  createdAt : Int
deriving DecidableEq, Repr

/-- The three in-memory tables of the broker plus the web-client counter. -/
structure SigState where
  pending : List (String × PendingConnection)
  machineClients : List (String × ConnectedClient)
  webClients : List (String × ConnectedClient)
  webClientCounter : Nat
deriving DecidableEq, Repr

/-- `registerMachineClient` (line 513). -/
def registerMachineClient (machineId : String) (client : ConnectedClient) (st : SigState) :
    SigState :=
  { st with machineClients := aset machineId client st.machineClients }

/-- `unregisterMachineClient` (line 517). -/
def unregisterMachineClient (machineId : String) (st : SigState) : SigState :=
  { st with machineClients := aerase machineId st.machineClients }

/-- `getClientById` (line 661): `machineClients.get(id) || webClients.get(id)`. -/
def getClientById (st : SigState) (clientId : String) : Option ConnectedClient :=
  match alookup clientId st.machineClients with
  | some c => some c
  | none => alookup clientId st.webClients

/-- `broadcastMachineStatus` (lines 772-792): sends `machine_online` /
`machine_offline` to every machine channel of the machine's owner except
`excludeCid`. -/
def broadcastMachineStatus (db : Db) (st : SigState) (machineId : String)
    (isOnline : Bool) (excludeCid : Option Nat) : List Sent :=
  match getMachineById db machineId with
  | none => []
  | some machine =>
      st.machineClients.filterMap (fun p =>
        if p.2.userId == some machine.user_id && !(some p.2.cid == excludeCid) then
          some ⟨p.2.cid,
            if isOnline then OutMsg.machineOnline machineId machine.name
            else OutMsg.machineOffline machineId machine.name⟩
        else none)

/-- The 30 s timer armed by `handleConnectToMachine` (lines 592-601): what the
closure captured. The client's `machineId` is re-read at fire time. -/
structure TimerArm where
  connectionId : String
  clientCid : Nat
  clientId : String
deriving DecidableEq, Repr

/-- The timer callback (lines 592-601), evaluated at fire time with the
originator channel's `machineId` as it is then. -/
def connectionTimeoutFire (t : TimerArm) (machineIdAtFire : Option String)
    (st : SigState) : SigState × List Sent :=
  if (alookup t.connectionId st.pending).isSome then
    let st2 := { st with pending := aerase t.connectionId st.pending }
    let st3 :=
      if !optStrTruthy machineIdAtFire && strTruthy t.clientId then
        { st2 with webClients := aerase t.clientId st2.webClients }
      else st2
    (st3, [⟨t.clientCid, OutMsg.error "CONNECTION_TIMEOUT" "Connection request timed out"⟩])
  else
    (st, [])

/-- `handleConnectToMachine` (lines 525-602). `freshConnId` stands for the
`uuidv4()` result; the returned `TimerArm` is the armed 30 s timeout. -/
def handleConnectToMachine (db : Db) (client : ConnectedClient) (targetMachineId : String)
    (now : Int) (freshConnId : String) (st : SigState) :
    SigState × List Sent × Option TimerArm :=
  if !optStrTruthy client.userId then
    (st, [⟨client.cid, OutMsg.error "NOT_AUTHENTICATED" "Must be authenticated"⟩], none)
  else
    let userId := client.userId.getD ""
    if !canUserAccessMachine db userId targetMachineId then
      (st, [⟨client.cid, OutMsg.error "ACCESS_DENIED" "You do not have access to this machine"⟩],
       none)
    else
      match alookup targetMachineId st.machineClients with
      | none =>
          (st, [⟨client.cid, OutMsg.error "MACHINE_OFFLINE" "Target machine is not online"⟩],
           none)
      | some targetClient =>
          let minted := !optStrTruthy client.machineId
          let counter2 := if minted then st.webClientCounter + 1 else st.webClientCounter
          let clientId :=
            if minted then "web-client-" ++ toString counter2 else client.machineId.getD ""
          let webClients2 :=
            if minted then aset clientId client st.webClients else st.webClients
          let sourceName :=
            if optStrTruthy client.machineId then
              match getMachineById db (client.machineId.getD "") with
              | some m => m.name
              | none => "Web Client"
            else "Web Client"
          let pending : PendingConnection :=
            { id := freshConnId, fromMachineId := client.machineId,
              fromClientId := clientId, toMachineId := targetMachineId,
              fromClientCid := client.cid, createdAt := now }
          ({ st with pending := aset freshConnId pending st.pending,
                     webClients := webClients2, webClientCounter := counter2 },
           [⟨targetClient.cid, OutMsg.connectionRequest clientId sourceName freshConnId⟩],
           some ⟨freshConnId, client.cid, clientId⟩)

/-- `handleConnectionAccepted` (lines 604-631). The pending table is not
modified (the entry is retained for RTC signaling). -/
def handleConnectionAccepted (client : ConnectedClient) (connectionId : String)
    (st : SigState) : List Sent :=
  match alookup connectionId st.pending with
  | none =>
      [⟨client.cid, OutMsg.error "CONNECTION_NOT_FOUND" "Connection request not found or expired"⟩]
  | some pending =>
      if !(client.machineId == some pending.toMachineId) then
        [⟨client.cid, OutMsg.error "INVALID_CONNECTION" "You are not the target of this connection"⟩]
      else
        [⟨pending.fromClientCid, OutMsg.connectionAccepted connectionId pending.toMachineId⟩]

/-- `handleConnectionRejected` (lines 633-658). -/
def handleConnectionRejected (client : ConnectedClient) (connectionId reason : String)
    (st : SigState) : SigState × List Sent :=
  match alookup connectionId st.pending with
  | none => (st, [])
  | some pending =>
      if !(client.machineId == some pending.toMachineId) then (st, [])
      else
        ({ st with pending := aerase connectionId st.pending },
         [⟨pending.fromClientCid, OutMsg.connectionRejected connectionId reason⟩])

/-- The participant test of `handleRTCOffer` (lines 677-685):
`isFromClient || isToClient`. -/
def isParticipant (client : ConnectedClient) (pending : PendingConnection) : Bool :=
  let clientIdentifier := jsOrStr client.machineId pending.fromClientId
  let isFromClient :=
    pending.fromClientCid == client.cid || clientIdentifier == pending.fromClientId
  let isToClient := client.machineId == some pending.toMachineId
  isFromClient || isToClient

/-- `handleRTCOffer` (lines 665-705). No state change; returns the sends. -/
def handleRTCOffer (client : ConnectedClient) (connectionId targetMachineId sdp : String)
    (st : SigState) : List Sent :=
  match alookup connectionId st.pending with
  | none => [⟨client.cid, OutMsg.error "CONNECTION_NOT_FOUND" "Connection not found"⟩]
  | some pending =>
      if !isParticipant client pending then
        [⟨client.cid, OutMsg.error "INVALID_CONNECTION" "You are not part of this connection"⟩]
      else
        match alookup targetMachineId st.machineClients with
        | none => [⟨client.cid, OutMsg.error "MACHINE_OFFLINE" "Target machine went offline"⟩]
        | some targetClient =>
            let senderClientId := jsOrStr client.machineId pending.fromClientId
            [⟨targetClient.cid, OutMsg.rtcOffer connectionId senderClientId sdp⟩]

/-- `handleRTCAnswer` (lines 707-740). Forwards whenever the pending exists and
the target resolves; then deletes the pending (and the originator's
web-client entry when the originator was a web client). -/
def handleRTCAnswer (client : ConnectedClient) (connectionId targetMachineId sdp : String)
    (st : SigState) : SigState × List Sent :=
  match alookup connectionId st.pending with
  | none => (st, [⟨client.cid, OutMsg.error "CONNECTION_NOT_FOUND" "Connection not found"⟩])
  | some pending =>
      match getClientById st targetMachineId with
      | none => (st, [⟨client.cid, OutMsg.error "MACHINE_OFFLINE" "Target went offline"⟩])
      | some targetClient =>
          let webClients2 :=
            if strTruthy pending.fromClientId && !optStrTruthy pending.fromMachineId then
              aerase pending.fromClientId st.webClients
            else st.webClients
          ({ st with pending := aerase connectionId st.pending, webClients := webClients2 },
           [⟨targetClient.cid,
             OutMsg.rtcAnswer connectionId (jsOrStr client.machineId pending.toMachineId) sdp⟩])

/-- `handleRTCIceCandidate` (lines 742-769). Best effort; no state change. -/
def handleRTCIceCandidate (client : ConnectedClient)
    (connectionId targetMachineId candidate : String) (st : SigState) : List Sent :=
  match getClientById st targetMachineId with
  | none => []
  | some targetClient =>
      let senderClientId : Option String :=
        if optStrTruthy client.machineId then client.machineId
        else (alookup connectionId st.pending).map (fun p => p.fromClientId)
      [⟨targetClient.cid, OutMsg.rtcIce connectionId senderClientId candidate⟩]

/-- `handleDisconnect` (src/server.ts:461-467): on channel close, if the
channel was a machine, unregister it, mark it offline in storage and
broadcast `machine_offline`. -/
def handleDisconnect (db : Db) (st : SigState) (client : ConnectedClient) (now : Int) :
    Db × SigState × List Sent :=
  if optStrTruthy client.machineId then
    let m := client.machineId.getD ""
    let st2 := unregisterMachineClient m st
    let db2 := updateMachineOnlineStatus db m false now
    (db2, st2, broadcastMachineStatus db2 st2 m false none)
  else
    (db, st, [])

/-! ## Control-channel hub dispatcher (src/server.ts:245-467) -/

/-- The user view the identity service returns (only the id is consumed by
the hub: `client.userId = user.id`). -/
structure UserView where
  id : String
deriving DecidableEq, Repr

/-- Outcome of `loginUser` / `registerUser` as the hub consumes it:
`success` plus `user?.id`. -/
structure IdentityResult where
  success : Bool
  userId : Option String
deriving DecidableEq, Repr

/-- The identity service (src/auth.ts), an external collaborator of the hub:
its results are inputs of the dispatch step. -/
structure AuthOracle where
  verifyToken : String → Option String
  getUserById : String → Option UserView
  loginUser : String → String → IdentityResult
  registerUser : String → String → String → IdentityResult

/-- Inbound frames after JSON parsing and the `payload` casts of
`handleMessage`; each carries the optional correlation `id`. -/
inductive InMsg where
  | auth (id : Option String) (token email password : Option String)
  | registerUser (id : Option String) (email username password : String)
  | registerMachine (id : Option String) (name platform : String)
      (capabilities : MachineCapabilities)
  | heartbeat (id : Option String)
  | listMachines (id : Option String)
  | deleteMachine (id : Option String) (machineId : String)
  | renameMachine (id : Option String) (machineId newName : String)
  | connectToMachine (id : Option String) (targetMachineId : String)
  | connectionAccepted (id : Option String) (connectionId : String)
  | connectionRejected (id : Option String) (connectionId reason : String)
  | rtcOffer (id : Option String) (connectionId targetMachineId sdp : String)
  | rtcAnswer (id : Option String) (connectionId targetMachineId sdp : String)
  | rtcIce (id : Option String) (connectionId targetMachineId candidate : String)
  | unknown (id : Option String) (t : String)
deriving DecidableEq, Repr

/-- The correlation `id` of an inbound frame. -/
def InMsg.msgId : InMsg → Option String
  | .auth i _ _ _ => i
  | .registerUser i _ _ _ => i
  | .registerMachine i _ _ _ => i
  | .heartbeat i => i
  | .listMachines i => i
  | .deleteMachine i _ => i
  | .renameMachine i _ _ => i
  | .connectToMachine i _ => i
  | .connectionAccepted i _ => i
  | .connectionRejected i _ _ => i
  | .rtcOffer i _ _ _ => i
  | .rtcAnswer i _ _ _ => i
  | .rtcIce i _ _ _ => i
  | .unknown i _ => i

/-- `getMachinesForUser` (src/machines.ts:65-80), projected to the machine
ids the response carries (the `ORDER BY name` and the per-row view do not
matter to any claim and are abstracted to table order). -/
def getMachinesForUser (db : Db) (userId : String) : List String :=
  (db.machines.filter (fun r => r.user_id == userId)).map (fun r => r.id)

/-- `handleAuth` (src/server.ts:364-402). Returns the updated channel and
the sends. -/
def handleAuth (oracle : AuthOracle) (client : ConnectedClient)
    (token email password : Option String) (messageId : Option String) :
    ConnectedClient × List Sent :=
  if optStrTruthy token then
    match oracle.verifyToken (token.getD "") with
    | none => (client, [⟨client.cid, OutMsg.authResponse messageId false⟩])
    | some decodedUserId =>
        match oracle.getUserById decodedUserId with
        | none => (client, [⟨client.cid, OutMsg.authResponse messageId false⟩])
        | some user =>
            ({ client with authenticated := true, userId := some user.id },
             [⟨client.cid, OutMsg.authResponse messageId true⟩])
  else if optStrTruthy email && optStrTruthy password then
    let res := oracle.loginUser (email.getD "") (password.getD "")
    let client2 :=
      if res.success then
        match res.userId with
        | some uid => { client with authenticated := true, userId := some uid }
        | none => client
      else client
    (client2, [⟨client.cid, OutMsg.authResponse messageId res.success⟩])
  else
    (client, [⟨client.cid, OutMsg.authResponse messageId false⟩])

/-- `handleRegisterUser` (src/server.ts:404-421). -/
def handleRegisterUser (oracle : AuthOracle) (client : ConnectedClient)
    (email username password : String) (messageId : Option String) :
    ConnectedClient × List Sent :=
  let res := oracle.registerUser email username password
  let client2 :=
    if res.success then
      match res.userId with
      | some uid => { client with authenticated := true, userId := some uid }
      | none => client
    else client
  (client2, [⟨client.cid, OutMsg.registerUserResponse messageId res.success⟩])

/-- `handleRegisterMachine` (src/server.ts:423-459). `regFails` models the
`catch` branch around the storage upsert. -/
def handleRegisterMachine (client : ConnectedClient) (name platform : String)
    (capabilities : MachineCapabilities) (messageId : Option String)
    (db : Db) (st : SigState) (now : Int) (freshMachineId : String) (regFails : Bool) :
    ConnectedClient × Db × SigState × List Sent :=
  if !optStrTruthy client.userId then
    (client, db, st,
     [⟨client.cid, OutMsg.error "NOT_AUTHENTICATED" "Must authenticate first"⟩])
  else if regFails then
    (client, db, st,
     [⟨client.cid, OutMsg.error "REGISTRATION_FAILED" "Failed to register machine"⟩])
  else
    let res := registerMachine db (client.userId.getD "") name platform capabilities
      now freshMachineId
    let db2 := res.1
    let machine := res.2
    let client2 := { client with machineId := some machine.id }
    let st2 := registerMachineClient machine.id client2 st
    let broadcast := broadcastMachineStatus db2 st2 machine.id true (some client.cid)
    (client2, db2, st2,
     broadcast ++ [⟨client.cid, OutMsg.machineRegistered messageId machine.id machine.name⟩])

/-- Per-step context of the dispatcher: the identity oracle and the values
the environment supplies during one message (current time, fresh UUIDs,
whether the machine upsert throws). -/
structure Ctx where
  oracle : AuthOracle
  now : Int
  freshConnId : String
  freshMachineId : String
  regFails : Bool

/-- `handleMessage` (src/server.ts:245-362): the full dispatch table. Returns
the updated channel record, store, broker state, the frames sent during the
handling, and the timer armed (for `connect_to_machine`). -/
def handleMessage (ctx : Ctx) (client : ConnectedClient) (msg : InMsg)
    (db : Db) (st : SigState) :
    ConnectedClient × Db × SigState × List Sent × Option TimerArm :=
  match msg with
  | .auth mid token email password =>
      let res := handleAuth ctx.oracle client token email password mid
      (res.1, db, st, res.2, none)
  | .registerUser mid email username password =>
      let res := handleRegisterUser ctx.oracle client email username password mid
      (res.1, db, st, res.2, none)
  | .registerMachine mid name platform capabilities =>
      if !client.authenticated then
        (client, db, st,
         [⟨client.cid, OutMsg.error "NOT_AUTHENTICATED" "Must authenticate first"⟩], none)
      else
        let res := handleRegisterMachine client name platform capabilities mid db st
          ctx.now ctx.freshMachineId ctx.regFails
        (res.1, res.2.1, res.2.2.1, res.2.2.2, none)
  | .heartbeat _ =>
      let client2 := { client with lastHeartbeat := ctx.now }
      let db2 :=
        if optStrTruthy client.machineId then
          updateMachineHeartbeat db (client.machineId.getD "") ctx.now
        else db
      (client2, db2, st, [⟨client.cid, OutMsg.heartbeatAck⟩], none)
  | .listMachines mid =>
      if !client.authenticated || !optStrTruthy client.userId then
        (client, db, st,
         [⟨client.cid, OutMsg.error "NOT_AUTHENTICATED" "Must authenticate first"⟩], none)
      else
        (client, db, st,
         [⟨client.cid, OutMsg.machinesList mid (getMachinesForUser db (client.userId.getD ""))⟩],
         none)
  | .deleteMachine mid machineId =>
      if !client.authenticated || !optStrTruthy client.userId then
        (client, db, st,
         [⟨client.cid, OutMsg.error "NOT_AUTHENTICATED" "Must authenticate first"⟩], none)
      else
        let res := deleteMachine db (client.userId.getD "") machineId
        (client, res.1, st,
         [⟨client.cid, OutMsg.deleteMachineResponse mid res.2 machineId⟩], none)
  | .renameMachine mid machineId newName =>
      if !client.authenticated || !optStrTruthy client.userId then
        (client, db, st,
         [⟨client.cid, OutMsg.error "NOT_AUTHENTICATED" "Must authenticate first"⟩], none)
      else
        let res := renameMachine db (client.userId.getD "") machineId newName
        (client, res.1, st,
         [⟨client.cid, OutMsg.renameMachineResponse mid res.2 machineId newName⟩], none)
  | .connectToMachine _ targetMachineId =>
      if !client.authenticated then
        (client, db, st,
         [⟨client.cid, OutMsg.error "NOT_AUTHENTICATED" "Must authenticate first"⟩], none)
      else
        let res := handleConnectToMachine db client targetMachineId ctx.now ctx.freshConnId st
        (client, db, res.1, res.2.1, res.2.2)
  | .connectionAccepted _ connectionId =>
      (client, db, st, handleConnectionAccepted client connectionId st, none)
  | .connectionRejected _ connectionId reason =>
      let res := handleConnectionRejected client connectionId reason st
      (client, db, res.1, res.2, none)
  | .rtcOffer _ connectionId targetMachineId sdp =>
      (client, db, st, handleRTCOffer client connectionId targetMachineId sdp st, none)
  | .rtcAnswer _ connectionId targetMachineId sdp =>
      let res := handleRTCAnswer client connectionId targetMachineId sdp st
      (client, db, res.1, res.2, none)
  | .rtcIce _ connectionId targetMachineId candidate =>
      (client, db, st, handleRTCIceCandidate client connectionId targetMachineId candidate st,
       none)
  | .unknown _ t =>
      (client, db, st,
       [⟨client.cid, OutMsg.error "UNKNOWN_MESSAGE" ("Unknown message type: " ++ t)⟩], none)

/-! ## Helper lemmas on the table operations -/

theorem updEntry_hit {α : Type} (k : String) (v : α) (p : String × α) (h : p.1 = k) :
    updEntry k v p = (k, v) := by simp [updEntry, h]

theorem updEntry_miss {α : Type} (k : String) (v : α) (p : String × α) (h : ¬ p.1 = k) :
    updEntry k v p = p := by simp [updEntry, h]

theorem keepEntry_hit {α : Type} (k : String) (p : String × α) (h : p.1 = k) :
    keepEntry k p = false := by simp [keepEntry, h]

theorem keepEntry_miss {α : Type} (k : String) (p : String × α) (h : ¬ p.1 = k) :
    keepEntry k p = true := by simp [keepEntry, h]

theorem alookup_aerase {α : Type} (k k2 : String) (l : List (String × α)) :
    alookup k (aerase k2 l) = if k2 = k then none else alookup k l := by
  induction l with
  | nil => simp [alookup, aerase]
  | cons p rest ih =>
      obtain ⟨k3, v⟩ := p
      unfold aerase at ih ⊢
      rw [List.filter_cons]
      by_cases h32 : k3 = k2
      · rw [keepEntry_hit k2 (k3, v) h32]
        simp only [Bool.false_eq_true, if_false, reduceIte, ih]
        by_cases hk : k2 = k
        · rw [if_pos hk, if_pos hk]
        · rw [if_neg hk, if_neg hk]
          simp only [alookup]
          rw [if_neg (fun h3 : k3 = k => hk (h32 ▸ h3))]
      · rw [keepEntry_miss k2 (k3, v) h32]
        simp only [if_true, reduceIte]
        simp only [alookup, ih]
        by_cases h3k : k3 = k
        · rw [if_pos h3k, if_pos h3k, if_neg (fun hk : k2 = k => h32 (h3k ▸ hk.symm))]
        · rw [if_neg h3k, if_neg h3k]

theorem alookup_append {α : Type} (k : String) (l1 l2 : List (String × α)) :
    alookup k (l1 ++ l2) =
      match alookup k l1 with
      | some v => some v
      | none => alookup k l2 := by
  induction l1 with
  | nil => simp [alookup]
  | cons p rest ih =>
      obtain ⟨k3, v⟩ := p
      rw [List.cons_append]
      simp only [alookup]
      by_cases h : k3 = k
      · rw [if_pos h, if_pos h]
      · rw [if_neg h, if_neg h, ih]

theorem alookup_map_upd {α : Type} (k k2 : String) (v : α) (l : List (String × α))
    (h : k2 ≠ k) :
    alookup k (l.map (updEntry k2 v)) = alookup k l := by
  induction l with
  | nil => rfl
  | cons p rest ih =>
      obtain ⟨k3, v3⟩ := p
      rw [List.map_cons]
      by_cases h32 : k3 = k2
      · rw [updEntry_hit k2 v (k3, v3) h32]
        simp only [alookup]
        rw [if_neg h, if_neg (fun h3 : k3 = k => h (h32 ▸ h3)), ih]
      · rw [updEntry_miss k2 v (k3, v3) h32]
        simp only [alookup]
        by_cases h3k : k3 = k
        · rw [if_pos h3k, if_pos h3k]
        · rw [if_neg h3k, if_neg h3k, ih]

theorem alookup_map_upd_self {α : Type} (k : String) (v : α) (l : List (String × α))
    (hs : (alookup k l).isSome = true) :
    alookup k (l.map (updEntry k v)) = some v := by
  induction l with
  | nil => simp [alookup] at hs
  | cons p rest ih =>
      obtain ⟨k3, v3⟩ := p
      rw [List.map_cons]
      by_cases h3k : k3 = k
      · rw [updEntry_hit k v (k3, v3) h3k]
        simp only [alookup]
        simp
      · rw [updEntry_miss k v (k3, v3) h3k]
        simp only [alookup] at hs ⊢
        rw [if_neg h3k] at hs
        rw [if_neg h3k]
        exact ih hs

theorem alookup_aset {α : Type} (k k2 : String) (v : α) (l : List (String × α)) :
    alookup k (aset k2 v l) = if k2 = k then some v else alookup k l := by
  unfold aset
  by_cases hs : (alookup k2 l).isSome
  · by_cases hk : k2 = k
    · subst hk
      simp only [hs, if_true, reduceIte]
      rw [alookup_map_upd_self k2 v l hs]
    · simp only [hs, if_true, reduceIte]
      rw [alookup_map_upd k k2 v l hk, if_neg hk]
  · have hnone : alookup k2 l = none := by
      cases h : alookup k2 l with
      | none => rfl
      | some w => rw [h] at hs; simp at hs
    simp only [hs, Bool.false_eq_true, if_false, reduceIte]
    rw [alookup_append]
    by_cases hk : k2 = k
    · subst hk
      rw [hnone]
      simp [alookup]
    · cases h : alookup k l with
      | none =>
          rw [if_neg hk]
          simp [alookup, hk]
      | some w => rw [if_neg hk]

/-! ## Concrete fixtures used by witnesses and counterexamples -/

/-- A machine row: Alice's laptop `M`. -/
def mRow : MachineRow :=
  { id := "M", user_id := "alice", name := "laptop", platform := "linux",
    last_seen := 0, is_online := true,
    capabilities := ⟨true, true, false, true⟩, created_at := 0 }

/-- A store holding only `mRow`. -/
def dbFix : Db := ⟨[mRow]⟩

/-- The live channel of machine `M` (Alice's laptop). -/
def aliceMachine : ConnectedClient :=
  { cid := 2, authenticated := true, userId := some "alice",
    machineId := some "M", lastHeartbeat := 0 }

/-- Alice's browser channel (no machine). -/
def aliceWeb : ConnectedClient :=
  { cid := 1, authenticated := true, userId := some "alice",
    machineId := none, lastHeartbeat := 0 }

/-- Bob, a different authenticated user with no machine. -/
def bobClient : ConnectedClient :=
  { cid := 7, authenticated := true, userId := some "bob",
    machineId := none, lastHeartbeat := 0 }

/-- Eve's machine channel `X`, a third party to the pending connection. -/
def intruderClient : ConnectedClient :=
  { cid := 3, authenticated := true, userId := some "eve",
    machineId := some "X", lastHeartbeat := 0 }

/-- A pending connection `C`: Alice's browser (web-client-1) → machine `M`. -/
def pFix : PendingConnection :=
  { id := "C", fromMachineId := none, fromClientId := "web-client-1",
    toMachineId := "M", fromClientCid := 1, createdAt := 0 }

/-- Broker state with `C` pending, `M` registered, `web-client-1` tracked. -/
def stFix : SigState :=
  { pending := [("C", pFix)], machineClients := [("M", aliceMachine)],
    webClients := [("web-client-1", aliceWeb)], webClientCounter := 1 }

/-- An identity oracle that rejects everything (its answers are irrelevant
to the fixtures that use it). -/
def oracleFix : AuthOracle :=
  { verifyToken := fun _ => none, getUserById := fun _ => none,
    loginUser := fun _ _ => ⟨false, none⟩,
    registerUser := fun _ _ _ => ⟨false, none⟩ }

/-- A dispatch context over `oracleFix`. -/
def ctxFix : Ctx :=
  { oracle := oracleFix, now := 0, freshConnId := "c-1",
    freshMachineId := "m-1", regFails := false }

/-! ## C7: stale sweep -/

theorem staleRow_decide (now T : Int) (r : MachineRow) :
    staleRow now T r = decide (r.is_online = true ∧ r.last_seen < now - T) := by
  simp [staleRow]

/-- C7: `sweepStale(T)` sets `is_online := false` exactly on the rows that
were online with `last_seen < now − T`, leaves every other row (and every
other column) unchanged, and returns precisely the transitioned ids. -/
theorem markStaleOffline_exact (db : Db) (T now : Int) :
    (markStaleOffline db T now).1.machines =
      db.machines.map (fun r =>
        if r.is_online = true ∧ r.last_seen < now - T then { r with is_online := false }
        else r) ∧
    (markStaleOffline db T now).2 =
      (db.machines.filter (fun r =>
        decide (r.is_online = true ∧ r.last_seen < now - T))).map (fun r => r.id) := by
  constructor
  · show db.machines.map _ = db.machines.map _
    apply List.map_congr_left
    intro r _
    by_cases hc : r.is_online = true ∧ r.last_seen < now - T
    · rw [if_pos ((staleRow_decide now T r).trans (decide_eq_true hc)), if_pos hc]
    · have hb : staleRow now T r = false := by
        rw [staleRow_decide now T r]
        exact decide_eq_false hc
      rw [if_neg (by simp [hb]), if_neg hc]
  · show ((db.machines.filter (staleRow now T)).map fun r => r.id) = _
    rw [List.filter_congr (fun r _ => staleRow_decide now T r)]

/-! ## C10: GET /ice-servers -/

/-- C10: `/ice-servers` answers 200 with one entry per STUN server followed
by one entry per TURN server whose credential is non-empty; TURN servers
with an empty credential are omitted. -/
theorem iceServers_route (ice : IceConfig) :
    (iceServersResponse ice).1 = 200 ∧
    (iceServersResponse ice).2 =
      ice.stunServers.map IceEntry.stun ++
      (ice.turnServers.filter (fun t => decide (t.credential ≠ ""))).map
        (fun t => IceEntry.turn t.urls t.username t.credential) := by
  refine ⟨rfl, ?_⟩
  show _ ++ (ice.turnServers.filter fun t => strTruthy t.credential).map _ = _
  rw [List.filter_congr (fun t _ => ?_)]
  by_cases h : t.credential = "" <;> simp [strTruthy, h]

/-! ## C1: ACCESS_DENIED blocks the connection request -/

/-- C1: for an authenticated channel (`userId` set), when
`canUserAccessMachine` is false, `connect_to_machine` answers exactly one
`ACCESS_DENIED` error to the caller, creates no pending connection, arms no
timer, changes no broker table, and sends no `connection_request`. -/
theorem connectToMachine_accessDenied (db : Db) (client : ConnectedClient)
    (targetMachineId : String) (now : Int) (freshConnId : String) (st : SigState)
    (hauth : optStrTruthy client.userId = true)
    (hacc : canUserAccessMachine db (client.userId.getD "") targetMachineId = false) :
    (handleConnectToMachine db client targetMachineId now freshConnId st).1 = st ∧
    (handleConnectToMachine db client targetMachineId now freshConnId st).2.1 =
      [⟨client.cid, OutMsg.error "ACCESS_DENIED" "You do not have access to this machine"⟩] ∧
    (handleConnectToMachine db client targetMachineId now freshConnId st).2.2 = none ∧
    (∀ s ∈ (handleConnectToMachine db client targetMachineId now freshConnId st).2.1,
      ∀ a b c, s.msg ≠ OutMsg.connectionRequest a b c) := by
  unfold handleConnectToMachine
  simp [hauth, hacc]

/-- Witness for C1: Bob asks to connect to Alice's machine `M`. -/
theorem connectToMachine_accessDenied_witness :
    (handleConnectToMachine dbFix bobClient "M" 0 "c-1" stFix).2.1 =
      [⟨7, OutMsg.error "ACCESS_DENIED" "You do not have access to this machine"⟩] := by
  have h := connectToMachine_accessDenied dbFix bobClient "M" 0 "c-1" stFix
    (by decide) (by decide)
  simpa [bobClient] using h.2.1

/-! ## C6: connection_accepted contract -/

/-- C6: `connection_accepted {connectionId}` answers `CONNECTION_NOT_FOUND`
when no pending exists, `INVALID_CONNECTION` when the sender is not the
target machine, and otherwise notifies the originator with
`{connectionId, targetMachineId}`; the pending table (and the rest of the
state) is left unchanged in all three cases. -/
theorem connectionAccepted_contract (ctx : Ctx) (client : ConnectedClient)
    (mid : Option String) (connectionId : String) (db : Db) (st : SigState) :
    (handleMessage ctx client (InMsg.connectionAccepted mid connectionId) db st).2.2.1 = st ∧
    (handleMessage ctx client (InMsg.connectionAccepted mid connectionId) db st).2.1 = db ∧
    (alookup connectionId st.pending = none →
      (handleMessage ctx client (InMsg.connectionAccepted mid connectionId) db st).2.2.2.1 =
        [⟨client.cid,
          OutMsg.error "CONNECTION_NOT_FOUND" "Connection request not found or expired"⟩]) ∧
    (∀ p, alookup connectionId st.pending = some p →
      ¬ client.machineId = some p.toMachineId →
      (handleMessage ctx client (InMsg.connectionAccepted mid connectionId) db st).2.2.2.1 =
        [⟨client.cid,
          OutMsg.error "INVALID_CONNECTION" "You are not the target of this connection"⟩]) ∧
    (∀ p, alookup connectionId st.pending = some p →
      client.machineId = some p.toMachineId →
      (handleMessage ctx client (InMsg.connectionAccepted mid connectionId) db st).2.2.2.1 =
        [⟨p.fromClientCid, OutMsg.connectionAccepted connectionId p.toMachineId⟩]) := by
  refine ⟨rfl, rfl, ?_, ?_, ?_⟩
  · intro h
    simp [handleMessage, handleConnectionAccepted, h]
  · intro p hp hne
    simp [handleMessage, handleConnectionAccepted, hp, hne]
  · intro p hp he
    simp [handleMessage, handleConnectionAccepted, hp, he]

/-- Witness for C6: machine `M` accepts pending `C`; the originator channel
(cid 1) is notified. -/
theorem connectionAccepted_contract_witness :
    (handleMessage ctxFix aliceMachine (InMsg.connectionAccepted none "C") dbFix stFix).2.2.2.1 =
      [⟨1, OutMsg.connectionAccepted "C" "M"⟩] := by
  have h := (connectionAccepted_contract ctxFix aliceMachine none "C" dbFix stFix).2.2.2.2
  have h2 := h pFix (by decide) (by decide)
  simpa [pFix] using h2

/-! ## C5: rtc_answer forwarding and cleanup -/

/-- C5: when the pending exists and the target resolves through either
table, `rtc_answer` is forwarded with `targetMachineId` rewritten to the
sender's machineId (falling back to `pending.toMachineId` when the sender
has none), the pending entry is deleted, and the originator's web-channel
entry is removed when the originator was a web client. -/
theorem rtcAnswer_forward (client : ConnectedClient)
    (connectionId targetMachineId sdp : String) (st : SigState)
    (p : PendingConnection) (tc : ConnectedClient)
    (hp : alookup connectionId st.pending = some p)
    (ht : getClientById st targetMachineId = some tc) :
    (handleRTCAnswer client connectionId targetMachineId sdp st).2 =
      [⟨tc.cid, OutMsg.rtcAnswer connectionId (jsOrStr client.machineId p.toMachineId) sdp⟩] ∧
    (∀ m, client.machineId = some m → m ≠ "" →
      jsOrStr client.machineId p.toMachineId = m) ∧
    (client.machineId = none → jsOrStr client.machineId p.toMachineId = p.toMachineId) ∧
    alookup connectionId
      (handleRTCAnswer client connectionId targetMachineId sdp st).1.pending = none ∧
    (p.fromMachineId = none → p.fromClientId ≠ "" →
      alookup p.fromClientId
        (handleRTCAnswer client connectionId targetMachineId sdp st).1.webClients = none) := by
  refine ⟨?_, ?_, ?_, ?_, ?_⟩
  · simp [handleRTCAnswer, hp, ht]
  · intro m hm hne
    simp [jsOrStr, hm, hne]
  · intro hm
    simp [jsOrStr, hm]
  · simp [handleRTCAnswer, hp, ht, alookup_aerase]
  · intro hweb hcid
    simp [handleRTCAnswer, hp, ht, hweb, hcid, optStrTruthy, strTruthy, alookup_aerase]

/-- Witness for C5: machine `M` answers the web originator of pending `C`. -/
theorem rtcAnswer_forward_witness :
    (handleRTCAnswer aliceMachine "C" "web-client-1" "v=0" stFix).2 =
      [⟨1, OutMsg.rtcAnswer "C" "M" "v=0"⟩] ∧
    alookup "C" (handleRTCAnswer aliceMachine "C" "web-client-1" "v=0" stFix).1.pending =
      none ∧
    alookup "web-client-1"
      (handleRTCAnswer aliceMachine "C" "web-client-1" "v=0" stFix).1.webClients = none := by
  have h := rtcAnswer_forward aliceMachine "C" "web-client-1" "v=0" stFix pFix aliceWeb
    (by decide) (by decide)
  refine ⟨?_, h.2.2.2.1, h.2.2.2.2 (by decide) (by decide)⟩
  have h1 := h.1
  rwa [show jsOrStr aliceMachine.machineId pFix.toMachineId = "M" from by decide,
       show aliceWeb.cid = 1 from rfl] at h1

/-! ## C9: disconnect of a channel whose machineId was re-registered -/

theorem updateMachineOnlineStatus_sets (db : Db) (m : String) (b : Bool) (now : Int) :
    ∀ r ∈ (updateMachineOnlineStatus db m b now).machines, r.id = m → r.is_online = b := by
  intro r hr hid
  unfold updateMachineOnlineStatus at hr
  simp only [List.mem_map] at hr
  obtain ⟨r0, _, hr1⟩ := hr
  by_cases h0 : r0.id = m
  · rw [if_pos h0] at hr1
    rw [← hr1]
  · rw [if_neg h0] at hr1
    rw [← hr1] at hid
    exact absurd hid h0

/-- C9: closing a channel carrying `machineId = m` always deletes the
`MachineChannels` entry keyed `m` and writes `is_online = false` for `m`,
whether or not that entry still references the closing channel (so the
close of a stale duplicate channel unregisters the new live one). The
pending and web tables are untouched. -/
theorem disconnect_unregisters (db : Db) (st : SigState) (c1 : ConnectedClient)
    (now : Int) (m : String) (hm : c1.machineId = some m) (hne : m ≠ "") :
    alookup m (handleDisconnect db st c1 now).2.1.machineClients = none ∧
    (∀ r ∈ (handleDisconnect db st c1 now).1.machines, r.id = m → r.is_online = false) ∧
    (handleDisconnect db st c1 now).2.1.pending = st.pending ∧
    (handleDisconnect db st c1 now).2.1.webClients = st.webClients := by
  have hopt : optStrTruthy (some m) = true := by
    simp [optStrTruthy, strTruthy, hne]
  refine ⟨?_, ?_, ?_, ?_⟩
  · simp [handleDisconnect, hopt, hm, unregisterMachineClient, alookup_aerase]
  · have hdb : (handleDisconnect db st c1 now).1 = updateMachineOnlineStatus db m false now := by
      simp [handleDisconnect, hopt, hm]
    rw [hdb]
    exact updateMachineOnlineStatus_sets db m false now
  · simp [handleDisconnect, hopt, hm, unregisterMachineClient]
  · simp [handleDisconnect, hopt, hm, unregisterMachineClient]

/-- A second, later channel for machine `M` (re-registration), cid 9. -/
def aliceMachineNew : ConnectedClient :=
  { cid := 9, authenticated := true, userId := some "alice",
    machineId := some "M", lastHeartbeat := 0 }

/-- Registry state after `M` re-registered on the new channel. -/
def stReRegistered : SigState :=
  { pending := [], machineClients := [("M", aliceMachineNew)],
    webClients := [], webClientCounter := 0 }

/-- Witness for C9: the old channel (cid 2) closes while `M` is registered
to the new channel (cid 9); the entry for `M` is removed anyway and the
row is marked offline. -/
theorem disconnect_unregisters_witness :
    alookup "M" (handleDisconnect dbFix stReRegistered aliceMachine 5).2.1.machineClients =
      none ∧
    (∀ r ∈ (handleDisconnect dbFix stReRegistered aliceMachine 5).1.machines,
      r.id = "M" → r.is_online = false) := by
  have h := disconnect_unregisters dbFix stReRegistered aliceMachine 5 "M"
    (by decide) (by decide)
  exact ⟨h.1, h.2.1⟩

/-! ## C2: participant checks on rtc_offer vs rtc_answer -/

/-- Counterexample to C2: `intruderClient` (machine `X`, a third party)
is not a participant of pending `C`, yet its `rtc_answer` naming `C` is
forwarded to machine `M`'s channel. -/
theorem rtcAnswer_nonparticipant_forwarded :
    isParticipant intruderClient pFix = false ∧
    (handleRTCAnswer intruderClient "C" "M" "v=0" stFix).2 =
      [⟨2, OutMsg.rtcAnswer "C" "X" "v=0"⟩] := by decide

/-- C2 as amended: the participant check guards `rtc_offer` only — a
non-participant offer yields exactly one `INVALID_CONNECTION` error and no
forward, while `rtc_answer` is forwarded whenever the pending exists and
the target resolves, with no participant check on the sender. -/
theorem rtc_forward_participant_rule (client : ConnectedClient)
    (connectionId targetMachineId sdp : String) (st : SigState) (p : PendingConnection)
    (hp : alookup connectionId st.pending = some p) :
    (isParticipant client p = false →
      handleRTCOffer client connectionId targetMachineId sdp st =
        [⟨client.cid, OutMsg.error "INVALID_CONNECTION" "You are not part of this connection"⟩]) ∧
    (∀ tc, getClientById st targetMachineId = some tc →
      (handleRTCAnswer client connectionId targetMachineId sdp st).2 =
        [⟨tc.cid, OutMsg.rtcAnswer connectionId (jsOrStr client.machineId p.toMachineId) sdp⟩]) := by
  constructor
  · intro h
    simp [handleRTCOffer, hp, h]
  · intro tc htc
    simp [handleRTCAnswer, hp, htc]

/-- Witness for the amended C2: the intruder's offer is rejected with
`INVALID_CONNECTION` and nothing is forwarded. -/
theorem rtc_forward_participant_rule_witness :
    handleRTCOffer intruderClient "C" "M" "v=0" stFix =
      [⟨3, OutMsg.error "INVALID_CONNECTION" "You are not part of this connection"⟩] := by
  have h := (rtc_forward_participant_rule intruderClient "C" "M" "v=0" stFix pFix
    (by decide)).1 (by decide)
  simpa [intruderClient] using h

/-! ## C8: heartbeat frame effect -/

/-- C8: a `heartbeat` frame sets the channel's `lastHeartbeat` to the
current time and answers `heartbeat_ack`; every other channel field is
unchanged, the broker state is untouched, no timer is armed, and the only
persistent change — present exactly when the channel carries a machineId —
is refreshing that machine's `last_seen` (all other columns and rows
unchanged), so repeated heartbeats cause no other observable change. -/
theorem heartbeat_effect (ctx : Ctx) (client : ConnectedClient) (mid : Option String)
    (db : Db) (st : SigState) :
    (handleMessage ctx client (InMsg.heartbeat mid) db st).1.lastHeartbeat = ctx.now ∧
    (handleMessage ctx client (InMsg.heartbeat mid) db st).1.cid = client.cid ∧
    (handleMessage ctx client (InMsg.heartbeat mid) db st).1.authenticated =
      client.authenticated ∧
    (handleMessage ctx client (InMsg.heartbeat mid) db st).1.userId = client.userId ∧
    (handleMessage ctx client (InMsg.heartbeat mid) db st).1.machineId = client.machineId ∧
    (handleMessage ctx client (InMsg.heartbeat mid) db st).2.2.2.1 =
      [⟨client.cid, OutMsg.heartbeatAck⟩] ∧
    (handleMessage ctx client (InMsg.heartbeat mid) db st).2.2.1 = st ∧
    (handleMessage ctx client (InMsg.heartbeat mid) db st).2.2.2.2 = none ∧
    (∀ m, client.machineId = some m → m ≠ "" →
      (handleMessage ctx client (InMsg.heartbeat mid) db st).2.1.machines =
        db.machines.map (fun r =>
          if r.id = m then { r with last_seen := ctx.now } else r)) ∧
    (client.machineId = none →
      (handleMessage ctx client (InMsg.heartbeat mid) db st).2.1 = db) := by
  refine ⟨rfl, rfl, rfl, rfl, rfl, rfl, rfl, rfl, ?_, ?_⟩
  · intro m hm hne
    simp [handleMessage, hm, optStrTruthy, strTruthy, hne, updateMachineHeartbeat]
  · intro hm
    simp [handleMessage, hm, optStrTruthy]

/-- Witness for C8: a heartbeat from machine `M`'s channel at time 42. -/
theorem heartbeat_effect_witness :
    (handleMessage { ctxFix with now := 42 } aliceMachine (InMsg.heartbeat none)
        dbFix stFix).1.lastHeartbeat = 42 ∧
    (handleMessage { ctxFix with now := 42 } aliceMachine (InMsg.heartbeat none)
        dbFix stFix).2.1.machines =
      [{ mRow with last_seen := 42 }] := by
  have h := heartbeat_effect { ctxFix with now := 42 } aliceMachine none dbFix stFix
  refine ⟨h.1, ?_⟩
  have h9 := h.2.2.2.2.2.2.2.2.1 "M" (by decide) (by decide)
  rw [h9]
  decide

/-! ## C4: at most one correlated response, never response plus error -/

/-- Number of frames sent to channel `cid` carrying correlation id `X`. -/
def respCount (cid : Nat) (X : String) (outs : List Sent) : Nat :=
  outs.countP (fun s => decide (s.dest = cid) && decide (s.msg.corrId = some X))

/-- Number of `error` frames sent to channel `cid`. -/
def errCount (cid : Nat) (outs : List Sent) : Nat :=
  outs.countP (fun s => decide (s.dest = cid) && s.msg.isError)

theorem respCount_eq_zero_of_no_corr (cid : Nat) (X : String) (outs : List Sent)
    (h : ∀ s ∈ outs, s.msg.corrId = none) : respCount cid X outs = 0 := by
  refine List.countP_eq_zero.mpr (fun s hs => ?_)
  simp [h s hs]

theorem errCount_eq_zero_of_no_err (cid : Nat) (outs : List Sent)
    (h : ∀ s ∈ outs, s.msg.isError = false) : errCount cid outs = 0 := by
  refine List.countP_eq_zero.mpr (fun s hs => ?_)
  simp [h s hs]

theorem resp_zero_case (cid : Nat) (X : String) (outs : List Sent)
    (hz : respCount cid X outs = 0) :
    respCount cid X outs ≤ 1 ∧ (0 < respCount cid X outs → errCount cid outs = 0) := by
  rw [hz]
  exact ⟨by omega, fun h0 => absurd h0 (by omega)⟩

theorem handleAuth_shape (o : AuthOracle) (c : ConnectedClient)
    (t e p mid : Option String) :
    ∃ cl b, handleAuth o c t e p mid = (cl, [⟨c.cid, OutMsg.authResponse mid b⟩]) := by
  unfold handleAuth
  repeat' split
  all_goals exact ⟨_, _, rfl⟩

theorem handleRegisterUser_shape (o : AuthOracle) (c : ConnectedClient)
    (e u p : String) (mid : Option String) :
    ∃ cl b, handleRegisterUser o c e u p mid =
      (cl, [⟨c.cid, OutMsg.registerUserResponse mid b⟩]) := by
  unfold handleRegisterUser
  exact ⟨_, _, rfl⟩

theorem broadcast_sends_shape (db : Db) (st : SigState) (m : String) (b : Bool)
    (e : Option Nat) :
    ∀ s ∈ broadcastMachineStatus db st m b e,
      s.msg.corrId = none ∧ s.msg.isError = false := by
  intro s hs
  unfold broadcastMachineStatus at hs
  split at hs
  · simp at hs
  · simp only [List.mem_filterMap] at hs
    obtain ⟨p, _, hp⟩ := hs
    split at hp
    · rw [← Option.some_inj.mp hp]
      cases b <;> simp [OutMsg.corrId, OutMsg.isError]
    · simp at hp

theorem connectToMachine_sends_no_corr (db : Db) (client : ConnectedClient)
    (targetMachineId : String) (now : Int) (freshConnId : String) (st : SigState) :
    ∀ s ∈ (handleConnectToMachine db client targetMachineId now freshConnId st).2.1,
      s.msg.corrId = none := by
  intro s hs
  unfold handleConnectToMachine at hs
  cases h1 : optStrTruthy client.userId <;> rw [h1] at hs <;> try simp at hs
  · simp_all [OutMsg.corrId]
  · cases h2 : canUserAccessMachine db (client.userId.getD "") targetMachineId <;>
      rw [h2] at hs <;> try simp at hs
    · simp_all [OutMsg.corrId]
    · cases h3 : alookup targetMachineId st.machineClients <;> rw [h3] at hs <;>
        try simp at hs
      · simp_all [OutMsg.corrId]
      · simp_all [OutMsg.corrId]

theorem connectionAccepted_sends_no_corr (client : ConnectedClient)
    (connectionId : String) (st : SigState) :
    ∀ s ∈ handleConnectionAccepted client connectionId st, s.msg.corrId = none := by
  intro s hs
  unfold handleConnectionAccepted at hs
  repeat' split at hs
  all_goals simp_all [OutMsg.corrId]

theorem connectionRejected_sends_no_corr (client : ConnectedClient)
    (connectionId reason : String) (st : SigState) :
    ∀ s ∈ (handleConnectionRejected client connectionId reason st).2,
      s.msg.corrId = none := by
  intro s hs
  unfold handleConnectionRejected at hs
  repeat' split at hs
  all_goals simp_all [OutMsg.corrId]

theorem rtcOffer_sends_no_corr (client : ConnectedClient)
    (connectionId targetMachineId sdp : String) (st : SigState) :
    ∀ s ∈ handleRTCOffer client connectionId targetMachineId sdp st,
      s.msg.corrId = none := by
  intro s hs
  unfold handleRTCOffer at hs
  repeat' split at hs
  all_goals simp_all [OutMsg.corrId]

theorem rtcAnswer_sends_no_corr (client : ConnectedClient)
    (connectionId targetMachineId sdp : String) (st : SigState) :
    ∀ s ∈ (handleRTCAnswer client connectionId targetMachineId sdp st).2,
      s.msg.corrId = none := by
  intro s hs
  unfold handleRTCAnswer at hs
  repeat' split at hs
  all_goals simp_all [OutMsg.corrId]

theorem rtcIce_sends_no_corr (client : ConnectedClient)
    (connectionId targetMachineId candidate : String) (st : SigState) :
    ∀ s ∈ handleRTCIceCandidate client connectionId targetMachineId candidate st,
      s.msg.corrId = none := by
  intro s hs
  unfold handleRTCIceCandidate at hs
  repeat' split at hs
  all_goals simp_all [OutMsg.corrId]

theorem resp_append_case (cid : Nat) (X : String) (bc : List Sent) (m : OutMsg)
    (hbc : ∀ s ∈ bc, s.msg.corrId = none ∧ s.msg.isError = false)
    (hm : m.isError = false) :
    respCount cid X (bc ++ [⟨cid, m⟩]) ≤ 1 ∧
    (0 < respCount cid X (bc ++ [⟨cid, m⟩]) → errCount cid (bc ++ [⟨cid, m⟩]) = 0) := by
  have h1 : respCount cid X bc = 0 :=
    respCount_eq_zero_of_no_corr cid X bc (fun s hs => (hbc s hs).1)
  have h2 : errCount cid bc = 0 :=
    errCount_eq_zero_of_no_err cid bc (fun s hs => (hbc s hs).2)
  simp only [respCount, errCount] at h1 h2 ⊢
  rw [List.countP_append, List.countP_append, h1, h2]
  constructor
  · simp [List.countP_cons]
    split <;> omega
  · intro _
    simp [List.countP_cons, hm]

theorem handleRegisterMachine_shape (client : ConnectedClient) (name platform : String)
    (caps : MachineCapabilities) (mid : Option String) (db : Db) (st : SigState)
    (now : Int) (freshId : String) (hU : optStrTruthy client.userId = true) :
    ∃ bc cl db2 st2 machineId mname,
      handleRegisterMachine client name platform caps mid db st now freshId false =
        (cl, db2, st2, bc ++ [⟨client.cid, OutMsg.machineRegistered mid machineId mname⟩]) ∧
      (∀ s ∈ bc, s.msg.corrId = none ∧ s.msg.isError = false) := by
  unfold handleRegisterMachine
  rw [hU]
  exact ⟨_, _, _, _, _, _, rfl, broadcast_sends_shape _ _ _ _ _⟩

/-- C4: the handling of any inbound frame carrying correlation id `X` sends
at most one frame with id `X` back on the sender's channel, and whenever
such a response is sent, no `error` frame is sent to the sender during the
same handling. -/
theorem response_id_unique (ctx : Ctx) (client : ConnectedClient) (msg : InMsg)
    (db : Db) (st : SigState) (X : String) (h : msg.msgId = some X) :
    respCount client.cid X (handleMessage ctx client msg db st).2.2.2.1 ≤ 1 ∧
    (0 < respCount client.cid X (handleMessage ctx client msg db st).2.2.2.1 →
      errCount client.cid (handleMessage ctx client msg db st).2.2.2.1 = 0) := by
  cases msg with
  | auth mid t e p =>
      simp only [InMsg.msgId] at h
      subst h
      obtain ⟨cl, b, hb⟩ := handleAuth_shape ctx.oracle client t e p (some X)
      constructor
      · simp [handleMessage, hb, respCount, OutMsg.corrId]
      · intro _
        simp [handleMessage, hb, errCount, OutMsg.isError]
  | registerUser mid e u p =>
      simp only [InMsg.msgId] at h
      subst h
      obtain ⟨cl, b, hb⟩ := handleRegisterUser_shape ctx.oracle client e u p (some X)
      constructor
      · simp [handleMessage, hb, respCount, OutMsg.corrId]
      · intro _
        simp [handleMessage, hb, errCount, OutMsg.isError]
  | registerMachine mid name platform caps =>
      simp only [InMsg.msgId] at h
      subst h
      cases hA : client.authenticated with
      | false =>
          apply resp_zero_case
          simp [handleMessage, hA, respCount, OutMsg.corrId]
      | true =>
          cases hU : optStrTruthy client.userId with
          | false =>
              apply resp_zero_case
              simp [handleMessage, handleRegisterMachine, hA, hU, respCount, OutMsg.corrId]
          | true =>
              cases hR : ctx.regFails with
              | true =>
                  apply resp_zero_case
                  simp [handleMessage, handleRegisterMachine, hA, hU, hR, respCount,
                    OutMsg.corrId]
              | false =>
                  obtain ⟨bc, cl, db2, st2, mId, mName, heq, hbc⟩ :=
                    handleRegisterMachine_shape client name platform caps (some X) db st
                      ctx.now ctx.freshMachineId hU
                  have houts :
                      (handleMessage ctx client
                        (InMsg.registerMachine (some X) name platform caps) db st).2.2.2.1 =
                      bc ++ [⟨client.cid, OutMsg.machineRegistered (some X) mId mName⟩] := by
                    simp [handleMessage, hA, hR, heq]
                  rw [houts]
                  exact resp_append_case client.cid X bc _ hbc rfl
  | heartbeat mid =>
      apply resp_zero_case
      simp [handleMessage, respCount, OutMsg.corrId]
  | listMachines mid =>
      simp only [InMsg.msgId] at h
      subst h
      by_cases hc : (!client.authenticated || !optStrTruthy client.userId) = true
      · apply resp_zero_case
        simp [handleMessage, hc, respCount, OutMsg.corrId]
      · have hc2 := eq_false_of_ne_true hc
        constructor
        · simp [handleMessage, hc2, respCount, OutMsg.corrId, List.countP_cons]
        · intro _
          simp [handleMessage, hc2, errCount, OutMsg.isError]
  | deleteMachine mid machineId =>
      simp only [InMsg.msgId] at h
      subst h
      by_cases hc : (!client.authenticated || !optStrTruthy client.userId) = true
      · apply resp_zero_case
        simp [handleMessage, hc, respCount, OutMsg.corrId]
      · have hc2 := eq_false_of_ne_true hc
        constructor
        · simp [handleMessage, hc2, respCount, OutMsg.corrId, List.countP_cons]
        · intro _
          simp [handleMessage, hc2, errCount, OutMsg.isError]
  | renameMachine mid machineId newName =>
      simp only [InMsg.msgId] at h
      subst h
      by_cases hc : (!client.authenticated || !optStrTruthy client.userId) = true
      · apply resp_zero_case
        simp [handleMessage, hc, respCount, OutMsg.corrId]
      · have hc2 := eq_false_of_ne_true hc
        constructor
        · simp [handleMessage, hc2, respCount, OutMsg.corrId, List.countP_cons]
        · intro _
          simp [handleMessage, hc2, errCount, OutMsg.isError]
  | connectToMachine mid targetMachineId =>
      cases hA : client.authenticated with
      | false =>
          apply resp_zero_case
          simp [handleMessage, hA, respCount, OutMsg.corrId]
      | true =>
          apply resp_zero_case
          have houts :
              (handleMessage ctx client (InMsg.connectToMachine mid targetMachineId)
                db st).2.2.2.1 =
              (handleConnectToMachine db client targetMachineId ctx.now
                ctx.freshConnId st).2.1 := by
            simp [handleMessage, hA]
          rw [houts]
          exact respCount_eq_zero_of_no_corr _ _ _
            (connectToMachine_sends_no_corr db client targetMachineId ctx.now
              ctx.freshConnId st)
  | connectionAccepted mid connectionId =>
      apply resp_zero_case
      exact respCount_eq_zero_of_no_corr _ _ _
        (connectionAccepted_sends_no_corr client connectionId st)
  | connectionRejected mid connectionId reason =>
      apply resp_zero_case
      exact respCount_eq_zero_of_no_corr _ _ _
        (connectionRejected_sends_no_corr client connectionId reason st)
  | rtcOffer mid connectionId targetMachineId sdp =>
      apply resp_zero_case
      exact respCount_eq_zero_of_no_corr _ _ _
        (rtcOffer_sends_no_corr client connectionId targetMachineId sdp st)
  | rtcAnswer mid connectionId targetMachineId sdp =>
      apply resp_zero_case
      exact respCount_eq_zero_of_no_corr _ _ _
        (rtcAnswer_sends_no_corr client connectionId targetMachineId sdp st)
  | rtcIce mid connectionId targetMachineId candidate =>
      apply resp_zero_case
      exact respCount_eq_zero_of_no_corr _ _ _
        (rtcIce_sends_no_corr client connectionId targetMachineId candidate st)
  | unknown mid t =>
      simp only [InMsg.msgId] at h
      subst h
      apply resp_zero_case
      simp [handleMessage, respCount, OutMsg.corrId]

/-- Witness for C4: Alice's browser lists machines with id "42"; at most
one response with id "42" comes back. -/
theorem response_id_unique_witness :
    respCount 1 "42"
      (handleMessage ctxFix aliceWeb (InMsg.listMachines (some "42")) dbFix stFix).2.2.2.1
      ≤ 1 := by
  exact (response_id_unique ctxFix aliceWeb (InMsg.listMachines (some "42")) dbFix stFix
    "42" rfl).1

/-! ## C3: which events remove a pending connection -/

/-- The events that can touch the broker's in-memory tables, one per
handler dispatched by the hub, plus timer fire and channel close. -/
inductive SigEvent where
  | connect (client : ConnectedClient) (targetMachineId : String) (now : Int)
      (freshConnId : String)
  | accepted (client : ConnectedClient) (connectionId : String)
  | rejected (client : ConnectedClient) (connectionId reason : String)
  | offer (client : ConnectedClient) (connectionId targetMachineId sdp : String)
  | answer (client : ConnectedClient) (connectionId targetMachineId sdp : String)
  | ice (client : ConnectedClient) (connectionId targetMachineId candidate : String)
  | timerFire (t : TimerArm) (machineIdAtFire : Option String)
  | disconnect (client : ConnectedClient) (now : Int)

/-- The broker-state effect of each event, as implemented by the handlers.
`accepted`, `offer` and `ice` leave the tables untouched in the source
(their embeddings return sends only), so their step is the identity. -/
def sigStep (db : Db) (ev : SigEvent) (st : SigState) : SigState :=
  match ev with
  | .connect c tm now fresh => (handleConnectToMachine db c tm now fresh st).1
  | .accepted _ _ => st
  | .rejected c cid reason => (handleConnectionRejected c cid reason st).1
  | .offer _ _ _ _ => st
  | .answer c cid tm sdp => (handleRTCAnswer c cid tm sdp st).1
  | .ice _ _ _ _ => st
  | .timerFire t m => (connectionTimeoutFire t m st).1
  | .disconnect c now => (handleDisconnect db st c now).2.1

/-- The amended removal condition for the pending entry `connId`: a
forwarded `rtc_answer` naming it, a `connection_rejected` naming it sent
by the target machine, or the firing of its 30 s timer — and nothing else
(in particular not `connection_accepted` and not a disconnect). -/
def removesPending (st : SigState) (ev : SigEvent) (connId : String) : Prop :=
  match ev with
  | .rejected c cid _ =>
      cid = connId ∧ ∃ p, alookup cid st.pending = some p ∧ c.machineId = some p.toMachineId
  | .answer _ cid tm _ =>
      cid = connId ∧ (alookup cid st.pending).isSome = true ∧
        (getClientById st tm).isSome = true
  | .timerFire t _ => t.connectionId = connId
  | _ => False

theorem connectToMachine_pending_shape (db : Db) (c : ConnectedClient) (tm : String)
    (now : Int) (fresh : String) (st : SigState) :
    (handleConnectToMachine db c tm now fresh st).1.pending = st.pending ∨
    ∃ p, (handleConnectToMachine db c tm now fresh st).1.pending =
      aset fresh p st.pending := by
  unfold handleConnectToMachine
  dsimp only
  repeat' split
  all_goals first
    | exact Or.inl rfl
    | exact Or.inr ⟨_, rfl⟩

theorem handleDisconnect_pending (db : Db) (st : SigState) (c : ConnectedClient)
    (now : Int) :
    (handleDisconnect db st c now).2.1.pending = st.pending := by
  unfold handleDisconnect
  split <;> rfl

theorem timeoutFire_pending (t : TimerArm) (m : Option String) (st : SigState) :
    (connectionTimeoutFire t m st).1.pending =
      if (alookup t.connectionId st.pending).isSome = true
      then aerase t.connectionId st.pending else st.pending := by
  unfold connectionTimeoutFire
  by_cases hpr : (alookup t.connectionId st.pending).isSome = true
  · rw [if_pos hpr, if_pos hpr]
    dsimp only
    split <;> rfl
  · rw [if_neg hpr, if_neg hpr]

/-- C3 as amended: a live pending entry is removed by an event exactly when
that event is a forwarded `rtc_answer` naming it, a `connection_rejected`
naming it from the target machine, or its timer firing; `connect`,
`connection_accepted`, `rtc_offer`, `rtc_ice_candidate` and the disconnect
of either participant's channel never remove it. -/
theorem pending_removal_characterization (db : Db) (ev : SigEvent) (st : SigState)
    (connId : String) (hin : (alookup connId st.pending).isSome = true) :
    (alookup connId (sigStep db ev st).pending = none) ↔ removesPending st ev connId := by
  cases ev with
  | connect c tm now fresh =>
      simp only [sigStep, removesPending]
      constructor
      · intro hnone
        exfalso
        rcases connectToMachine_pending_shape db c tm now fresh st with hsh | ⟨p, hsh⟩
        · rw [hsh] at hnone
          rw [hnone] at hin
          simp at hin
        · rw [hsh, alookup_aset] at hnone
          by_cases hf : fresh = connId
          · rw [if_pos hf] at hnone
            simp at hnone
          · rw [if_neg hf] at hnone
            rw [hnone] at hin
            simp at hin
      · intro hf
        exact hf.elim
  | accepted c cid =>
      simp only [sigStep, removesPending]
      constructor
      · intro hnone
        rw [hnone] at hin
        simp at hin
      · intro hf
        exact hf.elim
  | rejected c cid reason =>
      simp only [sigStep, removesPending]
      cases hp : alookup cid st.pending with
      | none =>
          have hstep : (handleConnectionRejected c cid reason st).1 = st := by
            unfold handleConnectionRejected
            rw [hp]
          rw [hstep]
          constructor
          · intro hnone
            rw [hnone] at hin
            simp at hin
          · rintro ⟨hcid, p, hp2, _⟩
            simp at hp2
      | some p =>
          by_cases hmach : c.machineId = some p.toMachineId
          · have hstep : (handleConnectionRejected c cid reason st).1.pending =
                aerase cid st.pending := by
              unfold handleConnectionRejected
              rw [hp]
              simp [hmach]
            rw [hstep]
            constructor
            · intro hnone
              rw [alookup_aerase] at hnone
              by_cases hcid : cid = connId
              · exact ⟨hcid, p, rfl, hmach⟩
              · rw [if_neg hcid] at hnone
                rw [hnone] at hin
                simp at hin
            · rintro ⟨hcid, _⟩
              rw [alookup_aerase, if_pos hcid]
          · have hstep : (handleConnectionRejected c cid reason st).1 = st := by
              unfold handleConnectionRejected
              rw [hp]
              simp [hmach]
            rw [hstep]
            constructor
            · intro hnone
              rw [hnone] at hin
              simp at hin
            · rintro ⟨hcid, p2, hp2, hmach2⟩
              have hpp : p = p2 := Option.some_inj.mp hp2
              rw [← hpp] at hmach2
              exact absurd hmach2 hmach
  | offer c cid tm sdp =>
      simp only [sigStep, removesPending]
      constructor
      · intro hnone
        rw [hnone] at hin
        simp at hin
      · intro hf
        exact hf.elim
  | answer c cid tm sdp =>
      simp only [sigStep, removesPending]
      cases hp : alookup cid st.pending with
      | none =>
          have hstep : (handleRTCAnswer c cid tm sdp st).1 = st := by
            unfold handleRTCAnswer
            rw [hp]
          rw [hstep]
          constructor
          · intro hnone
            rw [hnone] at hin
            simp at hin
          · rintro ⟨hcid, hsome, _⟩
            simp at hsome
      | some p =>
          cases ht : getClientById st tm with
          | none =>
              have hstep : (handleRTCAnswer c cid tm sdp st).1 = st := by
                unfold handleRTCAnswer
                rw [hp, ht]
              rw [hstep]
              constructor
              · intro hnone
                rw [hnone] at hin
                simp at hin
              · rintro ⟨hcid, _, htc⟩
                simp at htc
          | some tc =>
              have hstep : (handleRTCAnswer c cid tm sdp st).1.pending =
                  aerase cid st.pending := by
                unfold handleRTCAnswer
                rw [hp, ht]
              rw [hstep]
              constructor
              · intro hnone
                rw [alookup_aerase] at hnone
                by_cases hcid : cid = connId
                · exact ⟨hcid, rfl, rfl⟩
                · rw [if_neg hcid] at hnone
                  rw [hnone] at hin
                  simp at hin
              · rintro ⟨hcid, _, _⟩
                rw [alookup_aerase, if_pos hcid]
  | ice c cid tm cand =>
      simp only [sigStep, removesPending]
      constructor
      · intro hnone
        rw [hnone] at hin
        simp at hin
      · intro hf
        exact hf.elim
  | timerFire t m =>
      simp only [sigStep, removesPending]
      rw [timeoutFire_pending]
      by_cases hpr : (alookup t.connectionId st.pending).isSome = true
      · rw [if_pos hpr]
        constructor
        · intro hnone
          rw [alookup_aerase] at hnone
          by_cases hcid : t.connectionId = connId
          · exact hcid
          · rw [if_neg hcid] at hnone
            rw [hnone] at hin
            simp at hin
        · intro hcid
          rw [alookup_aerase, if_pos hcid]
      · rw [if_neg hpr]
        constructor
        · intro hnone
          rw [hnone] at hin
          simp at hin
        · intro hcid
          rw [hcid] at hpr
          exact absurd hin hpr
  | disconnect c now =>
      simp only [sigStep, removesPending]
      rw [handleDisconnect_pending]
      constructor
      · intro hnone
        rw [hnone] at hin
        simp at hin
      · intro hf
        exact hf.elim

/-- Counterexample to C3: the disconnect of the target machine's channel
(cid 2) and of the originator's channel (cid 1) both leave the pending
entry `C` in place — disconnects never delete pending connections. -/
theorem pending_survives_disconnect_cex :
    (alookup "C" stFix.pending).isSome = true ∧
    alookup "C" (sigStep dbFix (SigEvent.disconnect aliceMachine 5) stFix).pending =
      some pFix ∧
    alookup "C" (sigStep dbFix (SigEvent.disconnect aliceWeb 5) stFix).pending =
      some pFix := by decide

/-- Witness for the amended C3: the 30 s timer for `C` fires and removes
the pending entry. -/
theorem pending_removal_characterization_witness :
    alookup "C" (sigStep dbFix (SigEvent.timerFire ⟨"C", 1, "web-client-1"⟩ none)
      stFix).pending = none := by
  exact (pending_removal_characterization dbFix
    (SigEvent.timerFire ⟨"C", 1, "web-client-1"⟩ none) stFix "C" (by decide)).mpr rfl
